import Mathlib

/-!
Verification of the autocord lecture-summary bot (`main.py`).

The program keeps a process-wide registry `user_data : user_id ↦ subject_name ↦
subject`, where a subject holds an optional playlist id and an optional cached
lecture.  Three commands operate on it: `add_subject` (register a subject),
`set_playlist` (link a playlist URL) and `latest_lecture_summary` (the
fetch → transcript → summarize pipeline).  External services (YouTube data API,
transcript API, OpenAI) are modelled as an `Env` of stubbed functions returning
`Except` values: an `.error` models the corresponding Python call raising an
exception.  Network activity is recorded in a `Calls` counter triple.
-/

set_option autoImplicit false

namespace Autocord

/-! ### Association lists (the Python dicts) -/

/-- First-match lookup in an association list, as Python `d[k]` / `k in d`. -/
def alookup {α β : Type} [DecidableEq α] : List (α × β) → α → Option β
  | [], _ => none
  | (k, v) :: rest, key => if k = key then some v else alookup rest key

/-- Update the first binding of `key`, or append one, as Python `d[k] = v`. -/
def aupdate {α β : Type} [DecidableEq α] : List (α × β) → α → β → List (α × β)
  | [], key, val => [(key, val)]
  | (k, v) :: rest, key, val =>
    if k = key then (key, val) :: rest else (k, v) :: aupdate rest key val

theorem alookup_aupdate_self {α β : Type} [DecidableEq α]
    (l : List (α × β)) (k : α) (v : β) :
    alookup (aupdate l k v) k = some v := by
  induction l with
  | nil => simp [aupdate, alookup]
  | cons hd tl ih =>
    obtain ⟨k', v'⟩ := hd
    by_cases h : k' = k
    · simp [aupdate, alookup, h]
    · simp [aupdate, alookup, h, ih]

/-! ### Data model (main.py line 23 comment and lines 68, 162-166) -/

/-- The cached-lecture record written at lines 162-166. -/
structure LectureCache where
  transcript : String
  summary : String
  title : String
deriving DecidableEq, Repr

/-- One subject's state: `{'playlist_id': ..., 'cached_lecture': ...}`. -/
structure Subject where
  playlist_id : Option String
  cached_lecture : Option LectureCache
deriving DecidableEq, Repr

/-- A user's profile: subject name ↦ subject state. -/
abbrev UserProfile := List (String × Subject)

/-- The process-wide `user_data` dictionary: user id ↦ profile. -/
abbrev Registry := List (Nat × UserProfile)

/-- Python `subject_name.lower()` (lines 58, 79, 101): character-wise case
fold of the name. -/
def lowerString (s : String) : String := String.mk (s.data.map Char.toLower)

/-- Case-folded subject lookup (`user_data[user_id][subject_name.lower()]`). -/
def getSubject (reg : Registry) (user_id : Nat) (subject_name : String) :
    Option Subject :=
  (alookup reg user_id).bind fun profile =>
    alookup profile (lowerString subject_name)

/-- The playlist id the pipeline would read for this (user, subject), if any. -/
def configuredPlaylist (reg : Registry) (user_id : Nat) (subject_name : String) :
    Option String :=
  (getSubject reg user_id subject_name).bind Subject.playlist_id

/-! ### extract_playlist_id (main.py lines 35-38)

`re.search(r"list=([a-zA-Z0-9_-]+)", url)`: scan left to right for a position
where the text starts with `list=` followed by at least one identifier
character; the captured group is the maximal identifier-character run there.
If the `+` cannot match at a position, the scan resumes one character later. -/

/-- Characters matched by the character class `[a-zA-Z0-9_-]`. -/
def isIdChar (c : Char) : Bool :=
  ('a' ≤ c && c ≤ 'z') || ('A' ≤ c && c ≤ 'Z') || ('0' ≤ c && c ≤ '9')
    || c = '_' || c = '-'

/-- Maximal run of identifier characters at the front of the list. -/
def idRun : List Char → List Char
  | [] => []
  | c :: rest => if isIdChar c then c :: idRun rest else []

/-- Does the text start with the literal `list=`? -/
def isListEqAt : List Char → Bool
  | 'l' :: 'i' :: 's' :: 't' :: '=' :: _ => true
  | _ => false

/-- The text after a leading `list=` (unspecified when there is none). -/
def dropListEq : List Char → List Char
  | 'l' :: 'i' :: 's' :: 't' :: '=' :: rest => rest
  | _ => []

/-- Left-to-right scan of `re.search(r"list=([a-zA-Z0-9_-]+)", ·)`:
returns the captured group of the first full match, if any. -/
def searchListEq : List Char → Option (List Char)
  | [] => none
  | c :: cs =>
    if isListEqAt (c :: cs) && !(idRun (dropListEq (c :: cs))).isEmpty then
      some (idRun (dropListEq (c :: cs)))
    else
      searchListEq cs

/-- Is `list=` present anywhere in the text? -/
def hasListEq : List Char → Bool
  | [] => false
  | c :: cs => isListEqAt (c :: cs) || hasListEq cs

/-- `extract_playlist_id` (main.py lines 35-38): `match.group(1)` of the regex
search, or `None` when the pattern does not occur. -/
def extract_playlist_id (url : String) : Option String :=
  (searchListEq url.data).map String.mk

theorem searchListEq_eq_none_of_no_marker (cs : List Char)
    (h : hasListEq cs = false) : searchListEq cs = none := by
  induction cs with
  | nil => rfl
  | cons c rest ih =>
    rw [hasListEq] at h
    rw [Bool.or_eq_false_iff] at h
    rw [searchListEq, h.1]
    simpa using ih h.2

/-! ### External services and the transcript response shapes (main.py 113-159)

Python exceptions carry a type name (`type(e).__name__`) and a message
(`str(e)`); a stage whose call raises is modelled by an `.error` result. -/

/-- An exception's type name and message, as printed at line 147. -/
structure PyError where
  category : String
  message : String
deriving DecidableEq, Repr

/-- A caption entry: a text-bearing mapping (`item['text']`) or a text-bearing
object (`item.text`) — the two cases of the comprehension at line 142. -/
inductive CaptionEntry where
  | dictEntry (text : String)
  | objEntry (text : String)
deriving DecidableEq, Repr

/-- The spoken-text field of a caption entry (line 142). -/
def CaptionEntry.getText : CaptionEntry → String
  | dictEntry t => t
  | objEntry t => t

/-- The transcript service's response object.  `transcriptAttr` and
`captionsAttr` model `hasattr`-probed attributes (lines 135-138); `elems`
models `list(transcript_data)` (line 140), which yields the entries or raises
(e.g. `TypeError` when the object is not iterable). -/
structure TranscriptData where
  transcriptAttr : Option (List CaptionEntry)
  captionsAttr : Option (List CaptionEntry)
  elems : Except PyError (List CaptionEntry)

/-- The shape fallback chain of lines 135-140: attribute `transcript` first,
else attribute `captions`, else iterate the object directly. -/
def resolveTranscriptList (d : TranscriptData) : Except PyError (List CaptionEntry) :=
  match d.transcriptAttr with
  | some l => Except.ok l
  | none =>
    match d.captionsAttr with
    | some l => Except.ok l
    | none => d.elems

/-- Line 142: `" ".join(item['text'] if isinstance(item, dict) else item.text
for item in transcript_list)`. -/
def joinTranscript (l : List CaptionEntry) : String :=
  String.intercalate " " (l.map CaptionEntry.getText)

/-- Line 123-124: one item of the playlistItems response. -/
structure PlaylistItem where
  videoId : String
  title : String
deriving DecidableEq, Repr

/-- Line 126: the canonical watch URL built from the video id. -/
def videoUrlOf (videoId : String) : String :=
  "https://www.youtube.com/watch?v=" ++ videoId

/-- Line 153: the summarization prompt built from title and transcript. -/
def mkPrompt (video_title transcript_text : String) : String :=
  "Summarize the key points of the following lecture transcript into clear, concise bullet points. Make it easy to digest. Lecture Title: "
    ++ video_title ++ "\n\nTranscript:\n" ++ transcript_text

/-- Stubbed external collaborators.  `youtube` maps a playlist id to the
playlistItems list (`.error` = the request raised, or the response was
malformed); `fetchTranscript` maps a video id to the transcript response
(`.error` = `fetch` raised); `openai` maps the prompt to the completion text
(`.error` = the completion call raised or had no usable choice). -/
structure Env where
  youtube : String → Except String (List PlaylistItem)
  fetchTranscript : String → Except PyError TranscriptData
  openai : String → Except String String

/-- How many calls the run made to each external service. -/
structure Calls where
  youtube : Nat
  transcript : Nat
  openai : Nat
deriving DecidableEq, Repr

/-! ### Commands (main.py lines 49-182) -/

/-- Result of the `!addsubject` command. -/
inductive RegisterResult where
  | created
  | already_exists
  | not_dm
deriving DecidableEq, Repr

/-- `add_subject` (main.py lines 49-69).  Outside a DM it only sends a notice
(line 53-55).  Otherwise it lowercases the name, materialises an empty profile
for a new user (lines 61-62), and creates the subject unless present. -/
def add_subject (reg : Registry) (user_id : Nat) (subject_name : String)
    (isDM : Bool) : RegisterResult × Registry :=
  if isDM = false then (.not_dm, reg) else
  match alookup reg user_id with
  | some profile =>
    match alookup profile (lowerString subject_name) with
    | some _ => (.already_exists, reg)
    | none =>
      (.created, aupdate reg user_id
        (aupdate profile (lowerString subject_name) ⟨none, none⟩))
  | none =>
    (.created, aupdate (aupdate reg user_id [])
      user_id (aupdate [] (lowerString subject_name) ⟨none, none⟩))

/-- Result of the `!setplaylist` command. -/
inductive LinkResult where
  | ok
  | subject_not_found
  | invalid_url
  | not_dm
deriving DecidableEq, Repr

/-- `set_playlist` (main.py lines 71-91).  DM gate, then the existence check
of lines 82-84, then `extract_playlist_id`; only a successful extraction
writes the playlist id (line 88). -/
def set_playlist (reg : Registry) (user_id : Nat)
    (subject_name playlist_url : String) (isDM : Bool) : LinkResult × Registry :=
  if isDM = false then (.not_dm, reg) else
  match alookup reg user_id with
  | none => (.subject_not_found, reg)
  | some profile =>
    match alookup profile (lowerString subject_name) with
    | none => (.subject_not_found, reg)
    | some subj =>
      match extract_playlist_id playlist_url with
      | some pid =>
        (.ok, aupdate reg user_id (aupdate profile (lowerString subject_name)
          { subj with playlist_id := some pid }))
      | none => (.invalid_url, reg)

/-- Terminal outcome of one `!latestlec` pipeline run.  `generic_error` is the
catch-all handler of lines 179-182 (its message blames the YouTube API key or
playlist id but carries `str(e)`); `transcript_failed` is the dedicated inner
handler of lines 144-148, which also surfaces the video URL. -/
inductive Outcome where
  | not_dm
  | not_configured
  | playlist_empty
  | transcript_failed (detail : PyError) (videoUrl : String)
  | generic_error (detail : String)
  | success (title summary videoUrl : String)
deriving DecidableEq, Repr

/-- `latest_lecture_summary` (main.py lines 93-182): the full pipeline.
DM gate (96-98); configuration gate (104-107); YouTube lookup (115-126) with
the empty-playlist exit (119-121); transcript fetch and shape fallback
(131-142) with the dedicated failure handler (144-148); summarization
(153-159); cache write (162-166).  A raise in the YouTube lookup or in the
summarization call is caught by the single outer handler (179-182). -/
def latest_lecture_summary (env : Env) (reg : Registry) (user_id : Nat)
    (subject_name : String) (isDM : Bool) : Outcome × Registry × Calls :=
  if isDM = false then (.not_dm, reg, ⟨0, 0, 0⟩) else
  match alookup reg user_id with
  | none => (.not_configured, reg, ⟨0, 0, 0⟩)
  | some profile =>
    match alookup profile (lowerString subject_name) with
    | none => (.not_configured, reg, ⟨0, 0, 0⟩)
    | some subj =>
      match subj.playlist_id with
      | none => (.not_configured, reg, ⟨0, 0, 0⟩)
      | some playlist_id =>
        match env.youtube playlist_id with
        | .error e => (.generic_error e, reg, ⟨1, 0, 0⟩)
        | .ok [] => (.playlist_empty, reg, ⟨1, 0, 0⟩)
        | .ok (item :: _) =>
          match env.fetchTranscript item.videoId with
          | .error e =>
            (.transcript_failed e (videoUrlOf item.videoId), reg, ⟨1, 1, 0⟩)
          | .ok tdata =>
            match resolveTranscriptList tdata with
            | .error e =>
              (.transcript_failed e (videoUrlOf item.videoId), reg, ⟨1, 1, 0⟩)
            | .ok tlist =>
              match env.openai (mkPrompt item.title (joinTranscript tlist)) with
              | .error e => (.generic_error e, reg, ⟨1, 1, 1⟩)
              | .ok summary =>
                (.success item.title summary (videoUrlOf item.videoId),
                 aupdate reg user_id (aupdate profile (lowerString subject_name)
                   { subj with
                       cached_lecture :=
                         some ⟨joinTranscript tlist, summary, item.title⟩ }),
                 ⟨1, 1, 1⟩)

/-- Registry states reachable from the empty start state (line 24:
`user_data = {}`) through any sequence of command invocations, with arbitrary
arguments and arbitrary external-service behaviour. -/
inductive Reachable : Registry → Prop
  | init : Reachable []
  | step_add (r : Registry) (uid : Nat) (name : String) (dm : Bool) :
      Reachable r → Reachable (add_subject r uid name dm).2
  | step_link (r : Registry) (uid : Nat) (name url : String) (dm : Bool) :
      Reachable r → Reachable (set_playlist r uid name url dm).2
  | step_summ (env : Env) (r : Registry) (uid : Nat) (name : String) (dm : Bool) :
      Reachable r → Reachable (latest_lecture_summary env r uid name dm).2.1

/-- Destructure a configured (user, subject): profile, subject and playlist id. -/
theorem configured_cases {reg : Registry} {uid : Nat} {name : String} {pid : String}
    (h : configuredPlaylist reg uid name = some pid) :
    ∃ profile subj, alookup reg uid = some profile ∧
      alookup profile (lowerString name) = some subj ∧ subj.playlist_id = some pid := by
  unfold configuredPlaylist getSubject at h
  cases h1 : alookup reg uid with
  | none => rw [h1] at h; simp at h
  | some profile =>
    rw [h1] at h
    simp only [Option.some_bind] at h
    cases h2 : alookup profile (lowerString name) with
    | none => rw [h2] at h; simp at h
    | some subj =>
      rw [h2] at h
      exact ⟨profile, subj, rfl, h2, by simpa using h⟩

/-! ### Concrete fixtures for witnesses and counterexamples -/

/-- A registry with user 1 tracking subject "cs" linked to playlist "PL1". -/
def regLinked : Registry := [(1, [("cs", ⟨some "PL1", none⟩)])]

/-- A registry with user 1 tracking subject "cs" with no playlist linked. -/
def regUnlinked : Registry := [(1, [("cs", ⟨none, none⟩)])]

/-- Environment whose YouTube lookup raises. -/
def envLookupFail : Env where
  youtube := fun _ => .error "HttpError 403"
  fetchTranscript := fun _ => .ok ⟨none, none, .ok []⟩
  openai := fun _ => .ok "ok"

/-- Environment that succeeds up to the summarization call, which raises with
the same message as `envLookupFail`'s lookup failure. -/
def envSummFail : Env where
  youtube := fun _ => .ok [⟨"v1", "Lec 1"⟩]
  fetchTranscript := fun _ =>
    .ok ⟨some [.dictEntry "a", .dictEntry "b"], none,
         .error ⟨"TypeError", "object is not iterable"⟩⟩
  openai := fun _ => .error "HttpError 403"

/-- Fully successful environment: one video, shape (a) with two fragments. -/
def envHappy : Env where
  youtube := fun _ => .ok [⟨"v1", "Lec 1"⟩]
  fetchTranscript := fun _ =>
    .ok ⟨some [.dictEntry "a", .dictEntry "b"], none,
         .error ⟨"TypeError", "object is not iterable"⟩⟩
  openai := fun _ => .ok "- point one"

/-- Environment whose transcript fetch raises. -/
def envNoTranscript : Env where
  youtube := fun _ => .ok [⟨"v1", "Lec 1"⟩]
  fetchTranscript := fun _ => .error ⟨"TranscriptsDisabled", "Subtitles are disabled"⟩
  openai := fun _ => .ok "ok"

/-- Environment returning an empty playlist. -/
def envEmptyPlaylist : Env where
  youtube := fun _ => .ok []
  fetchTranscript := fun _ => .ok ⟨none, none, .ok []⟩
  openai := fun _ => .ok "ok"

/-- Environment with one video whose transcript response is a bare iterable
with zero caption entries, and a successful summarization. -/
def envEmptyCaptions : Env where
  youtube := fun _ => .ok [⟨"v1", "Lec 1"⟩]
  fetchTranscript := fun _ => .ok ⟨none, none, .ok []⟩
  openai := fun _ => .ok "- sum"

/-! ### C5: not-configured gate -/

/-- C5: for every environment and registry in which the subject is
unregistered or has no playlist id, a DM summarize run terminates with
`not_configured`, performs zero network calls, and leaves the registry
unchanged. -/
theorem c5_not_configured_no_calls (env : Env) (reg : Registry) (uid : Nat)
    (name : String) (h : configuredPlaylist reg uid name = none) :
    latest_lecture_summary env reg uid name true
      = (.not_configured, reg, ⟨0, 0, 0⟩) := by
  unfold latest_lecture_summary
  unfold configuredPlaylist getSubject at h
  cases h1 : alookup reg uid with
  | none => simp [h1]
  | some profile =>
    rw [h1] at h
    simp only [Option.some_bind] at h
    cases h2 : alookup profile (lowerString name) with
    | none => simp [h1, h2]
    | some subj =>
      rw [h2] at h
      simp only [Option.some_bind] at h
      cases h3 : subj.playlist_id with
      | none => simp [h1, h2, h3]
      | some pid => rw [h3] at h; simp at h

/-- C5 witness: a registered but unlinked subject yields `not_configured` with
zero calls on a concrete registry. -/
theorem c5_witness :
    latest_lecture_summary envHappy regUnlinked 1 "cs" true
      = (.not_configured, regUnlinked, ⟨0, 0, 0⟩) :=
  c5_not_configured_no_calls envHappy regUnlinked 1 "cs" (by decide)

/-! ### C7: idempotent registration -/

/-- C7: if the (case-folded) subject already exists for the user, a DM
register call returns `already_exists` and returns the registry unchanged —
the subject's playlist id and cached lecture included. -/
theorem c7_register_idempotent (reg : Registry) (uid : Nat) (name : String)
    (subj : Subject) (h : getSubject reg uid name = some subj) :
    add_subject reg uid name true = (.already_exists, reg) := by
  unfold getSubject at h
  cases h1 : alookup reg uid with
  | none => rw [h1] at h; simp at h
  | some profile =>
    rw [h1] at h
    simp only [Option.some_bind] at h
    unfold add_subject
    simp [h1, h]

/-- C7 witness: re-registering "cs" on the concrete linked registry returns
`already_exists` and the identical registry. -/
theorem c7_witness :
    add_subject regLinked 1 "cs" true = (.already_exists, regLinked) :=
  c7_register_idempotent regLinked 1 "cs" ⟨some "PL1", none⟩ (by decide)

/-! ### C8: linking an unregistered subject -/

/-- C8: if the (user, subject) pair is not registered, a DM link call fails
with `subject_not_found` and returns the registry unchanged — in particular it
creates no subject. -/
theorem c8_link_unregistered (reg : Registry) (uid : Nat) (name url : String)
    (h : getSubject reg uid name = none) :
    set_playlist reg uid name url true = (.subject_not_found, reg) := by
  unfold getSubject at h
  unfold set_playlist
  cases h1 : alookup reg uid with
  | none => simp [h1]
  | some profile =>
    rw [h1] at h
    simp only [Option.some_bind] at h
    simp [h1, h]

/-- C8 witness: linking on the empty registry fails with `subject_not_found`
and leaves the registry empty. -/
theorem c8_witness :
    set_playlist [] 1 "cs" "list=PLabc" true = (.subject_not_found, []) :=
  c8_link_unregistered [] 1 "cs" "list=PLabc" (by decide)

/-! ### C9: empty playlist -/

/-- C9: when the hosting service returns an empty item list, a configured DM
run terminates with `playlist_empty`, makes no transcript or summarization
call, and returns the registry (hence any prior cached lecture) unchanged. -/
theorem c9_playlist_empty_frame (env : Env) (reg : Registry) (uid : Nat)
    (name pid : String) (hconf : configuredPlaylist reg uid name = some pid)
    (hyt : env.youtube pid = .ok []) :
    latest_lecture_summary env reg uid name true
      = (.playlist_empty, reg, ⟨1, 0, 0⟩) := by
  obtain ⟨profile, subj, h1, h2, h3⟩ := configured_cases hconf
  unfold latest_lecture_summary
  simp [h1, h2, h3, hyt]

/-- C9 witness: the empty-playlist environment on the linked registry. -/
theorem c9_witness :
    latest_lecture_summary envEmptyPlaylist regLinked 1 "cs" true
      = (.playlist_empty, regLinked, ⟨1, 0, 0⟩) :=
  c9_playlist_empty_frame envEmptyPlaylist regLinked 1 "cs" "PL1" (by decide) rfl

/-! ### C10: the DM gate -/

/-- C10: every command invoked outside a direct-message channel returns after
the notice only: registry unchanged and zero network calls, for all
arguments. -/
theorem c10_non_dm_no_effect (env : Env) (reg : Registry) (uid : Nat)
    (name url : String) :
    add_subject reg uid name false = (.not_dm, reg) ∧
    set_playlist reg uid name url false = (.not_dm, reg) ∧
    latest_lecture_summary env reg uid name false = (.not_dm, reg, ⟨0, 0, 0⟩) :=
  ⟨rfl, rfl, rfl⟩

/-! ### C4: transcript shape fallback and normalization -/

/-- C4: the resolver tries shape (a) `transcript`, then (b) `captions`, then
(c) direct iteration; the first present shape wins outright (later shapes are
ignored, never merged), and recognized entries are normalized by joining their
text fields with single spaces in order. -/
theorem c4_transcript_resolution (ta l : List CaptionEntry)
    (ca : Option (List CaptionEntry)) (el : Except PyError (List CaptionEntry)) :
    (resolveTranscriptList ⟨some ta, ca, el⟩ = .ok ta) ∧
    (resolveTranscriptList ⟨none, some l, el⟩ = .ok l) ∧
    (resolveTranscriptList ⟨none, none, el⟩ = el) ∧
    (joinTranscript [.dictEntry "a", .dictEntry "b"] = "a b") ∧
    (joinTranscript [.objEntry "x", .objEntry "y", .objEntry "z"] = "x y z") :=
  ⟨rfl, rfl, rfl, rfl, rfl⟩

/-! ### C6: transcript-stage failures -/

/-- C6: any transcript-stage failure — the fetch raising, or no recognized
shape (direct iteration raising after attributes (a) and (b) are absent) —
terminates a configured DM run with `transcript_failed` carrying the original
error's category and message together with the already-resolved video URL; the
registry is unchanged and the summarization service is never called. -/
theorem c6_transcript_failure (env : Env) (reg : Registry) (uid : Nat)
    (name pid : String) (item : PlaylistItem) (rest : List PlaylistItem)
    (hconf : configuredPlaylist reg uid name = some pid)
    (hyt : env.youtube pid = .ok (item :: rest)) :
    (∀ e : PyError, env.fetchTranscript item.videoId = .error e →
      latest_lecture_summary env reg uid name true
        = (.transcript_failed e (videoUrlOf item.videoId), reg, ⟨1, 1, 0⟩)) ∧
    (∀ (d : TranscriptData) (e : PyError),
      env.fetchTranscript item.videoId = .ok d →
      resolveTranscriptList d = .error e →
      latest_lecture_summary env reg uid name true
        = (.transcript_failed e (videoUrlOf item.videoId), reg, ⟨1, 1, 0⟩)) := by
  obtain ⟨profile, subj, h1, h2, h3⟩ := configured_cases hconf
  constructor
  · intro e he
    unfold latest_lecture_summary
    simp [h1, h2, h3, hyt, he]
  · intro d e hd he
    unfold latest_lecture_summary
    simp [h1, h2, h3, hyt, hd, he]

/-- C6 witness: a raised transcript fetch on the linked registry yields the
tagged failure with the video URL, one transcript call and no summarization
call. -/
theorem c6_witness :
    latest_lecture_summary envNoTranscript regLinked 1 "cs" true
      = (.transcript_failed ⟨"TranscriptsDisabled", "Subtitles are disabled"⟩
           (videoUrlOf "v1"), regLinked, ⟨1, 1, 0⟩) :=
  (c6_transcript_failure envNoTranscript regLinked 1 "cs" "PL1" ⟨"v1", "Lec 1"⟩ []
    (by decide) rfl).1 ⟨"TranscriptsDisabled", "Subtitles are disabled"⟩ rfl

/-! ### C1: distinguishability of terminal failures

In the source, only the transcript stage has a dedicated handler (lines
144-148).  A raise in the YouTube lookup and a raise in the summarization
call are both caught by the single outer handler (lines 179-182), which sends
one generic message carrying `str(e)` — there is no `summarization_failed`
outcome distinct from a lookup failure. -/

/-- C1 counterexample: a run whose YouTube lookup raises and a run whose
summarization call raises produce the *identical* terminal outcome
(`generic_error "HttpError 403"`), even though the two runs demonstrably fail
at different stages (their network-call counters differ).  The claimed
distinct `summarization_failed` outcome does not exist. -/
theorem c1_counterexample :
    (latest_lecture_summary envLookupFail regLinked 1 "cs" true).1
      = Outcome.generic_error "HttpError 403" ∧
    (latest_lecture_summary envSummFail regLinked 1 "cs" true).1
      = Outcome.generic_error "HttpError 403" ∧
    (latest_lecture_summary envLookupFail regLinked 1 "cs" true).2.2
      ≠ (latest_lecture_summary envSummFail regLinked 1 "cs" true).2.2 :=
  ⟨rfl, rfl, by decide⟩

/-- C1 amended: a transcript failure is stage-tagged (see `c6_transcript_failure`),
but a failed video lookup and a failed summarization call both terminate in
the single generic catch-all outcome, each carrying only the raised error's
detail — the caller cannot tell stage 2 from stage 4 by the outcome tag. -/
theorem c1_amended_generic_collapse (env : Env) (reg : Registry) (uid : Nat)
    (name pid d : String) (item : PlaylistItem) (rest : List PlaylistItem)
    (tdata : TranscriptData) (tlist : List CaptionEntry)
    (hconf : configuredPlaylist reg uid name = some pid) :
    (env.youtube pid = .error d →
      latest_lecture_summary env reg uid name true
        = (.generic_error d, reg, ⟨1, 0, 0⟩)) ∧
    (env.youtube pid = .ok (item :: rest) →
     env.fetchTranscript item.videoId = .ok tdata →
     resolveTranscriptList tdata = .ok tlist →
     env.openai (mkPrompt item.title (joinTranscript tlist)) = .error d →
      latest_lecture_summary env reg uid name true
        = (.generic_error d, reg, ⟨1, 1, 1⟩)) := by
  obtain ⟨profile, subj, h1, h2, h3⟩ := configured_cases hconf
  constructor
  · intro hyt
    unfold latest_lecture_summary
    simp [h1, h2, h3, hyt]
  · intro hyt hfe hres hai
    unfold latest_lecture_summary
    simp [h1, h2, h3, hyt, hfe, hres, hai]

/-- C1 amended witness: the summarization-failure environment terminates in
the generic outcome carrying the raised detail, after all three calls. -/
theorem c1_amended_witness :
    latest_lecture_summary envSummFail regLinked 1 "cs" true
      = (.generic_error "HttpError 403", regLinked, ⟨1, 1, 1⟩) :=
  (c1_amended_generic_collapse envSummFail regLinked 1 "cs" "PL1" "HttpError 403"
      ⟨"v1", "Lec 1"⟩ []
      ⟨some [.dictEntry "a", .dictEntry "b"], none,
        .error ⟨"TypeError", "object is not iterable"⟩⟩
      [.dictEntry "a", .dictEntry "b"] (by decide)).2 rfl rfl rfl rfl

/-! ### C2: extract_playlist_id

The regex search returns `None` on any input without a `list=` marker — a
bare identifier such as "PL123abc" is *not* accepted verbatim. -/

/-- C2 counterexample: on the bare identifier-shaped input "PL123abc" (no
`list=` marker), `extract_playlist_id` returns `none`, not the input
unchanged. -/
theorem c2_counterexample :
    extract_playlist_id "PL123abc" ≠ some "PL123abc" := by decide

/-- C2 amended: `extract_playlist_id` returns the captured token for the URL
example; it returns `none` for every input with no `list=` marker — including
a bare already-identifier-shaped string, which is not accepted verbatim. -/
theorem c2_amended_extract (url : String) (h : hasListEq url.data = false) :
    (extract_playlist_id "https://youtube.com/playlist?list=PL123abc_-XYZ"
       = some "PL123abc_-XYZ") ∧
    extract_playlist_id url = none ∧
    extract_playlist_id "PL123abc" = none := by
  refine ⟨by decide, ?_, by decide⟩
  unfold extract_playlist_id
  rw [searchListEq_eq_none_of_no_marker url.data h]
  rfl

/-- C2 amended witness: instantiated at the bare identifier "PL123abc". -/
theorem c2_amended_witness :
    (extract_playlist_id "https://youtube.com/playlist?list=PL123abc_-XYZ"
       = some "PL123abc_-XYZ") ∧
    extract_playlist_id "PL123abc" = none ∧
    extract_playlist_id "PL123abc" = none :=
  c2_amended_extract "PL123abc" (by decide)

/-! ### C3: the cached-lecture invariant

The cache write (lines 162-166) stores exactly the run's transcript, summary
and title — but nothing makes them non-empty: a transcript response that is a
bare iterable with zero caption entries joins to the empty string and is
cached as such. -/

/-- The registry after registering "cs", linking a playlist, and one pipeline
run in which the transcript response holds zero caption entries. -/
def reg_c3 : Registry :=
  (latest_lecture_summary envEmptyCaptions
    (set_playlist (add_subject [] 1 "cs" true).2 1 "cs" "list=PLabc" true).2
    1 "cs" true).2.1

/-- C3 counterexample: a reachable registry state whose cached lecture has an
*empty* `transcriptText` — the non-emptiness half of the claimed invariant is
false. -/
theorem c3_counterexample :
    Reachable reg_c3 ∧
    (getSubject reg_c3 1 "cs").bind Subject.cached_lecture
      = some ⟨"", "- sum", "Lec 1"⟩ := by
  constructor
  · exact Reachable.step_summ envEmptyCaptions _ 1 "cs" true
      (Reachable.step_link _ 1 "cs" "list=PLabc" true
        (Reachable.step_add [] 1 "cs" true Reachable.init))
  · decide

/-- C3 amended: whenever a run commits a cache entry, that entry holds exactly
the values of the committing run — the resolved video's title, the joined
caption texts of the winning shape, and the summarization output for the
prompt built from precisely that title and transcript; non-emptiness of the
fields is not guaranteed. -/
theorem c3_amended_cache_consistency (env : Env) (reg : Registry) (uid : Nat)
    (name pid : String) (item : PlaylistItem) (rest : List PlaylistItem)
    (tdata : TranscriptData) (tlist : List CaptionEntry) (summary : String)
    (hconf : configuredPlaylist reg uid name = some pid)
    (hyt : env.youtube pid = .ok (item :: rest))
    (hfe : env.fetchTranscript item.videoId = .ok tdata)
    (hres : resolveTranscriptList tdata = .ok tlist)
    (hai : env.openai (mkPrompt item.title (joinTranscript tlist)) = .ok summary) :
    (latest_lecture_summary env reg uid name true).1
      = .success item.title summary (videoUrlOf item.videoId) ∧
    (getSubject (latest_lecture_summary env reg uid name true).2.1 uid name).bind
        Subject.cached_lecture
      = some ⟨joinTranscript tlist, summary, item.title⟩ := by
  obtain ⟨profile, subj, h1, h2, h3⟩ := configured_cases hconf
  unfold latest_lecture_summary
  simp only [h1, h2, h3, hyt, hfe, hres, hai]
  refine ⟨by simp, ?_⟩
  simp [getSubject, alookup_aupdate_self]

/-- C3 amended witness: the fully successful environment commits the cache
entry built from exactly the run's title, joined transcript and summary. -/
theorem c3_amended_witness :
    (latest_lecture_summary envHappy regLinked 1 "cs" true).1
      = .success "Lec 1" "- point one" (videoUrlOf "v1") ∧
    (getSubject (latest_lecture_summary envHappy regLinked 1 "cs" true).2.1 1 "cs").bind
        Subject.cached_lecture
      = some ⟨joinTranscript [.dictEntry "a", .dictEntry "b"], "- point one", "Lec 1"⟩ :=
  c3_amended_cache_consistency envHappy regLinked 1 "cs" "PL1" ⟨"v1", "Lec 1"⟩ []
    ⟨some [.dictEntry "a", .dictEntry "b"], none,
      .error ⟨"TypeError", "object is not iterable"⟩⟩
    [.dictEntry "a", .dictEntry "b"] "- point one" (by decide) rfl rfl rfl rfl

end Autocord
